import Mathlib

/-!
Shallow embedding of the SimpleShader binding layer (SimpleShader.cpp):
the base class `ISimpleShader` (reflection-driven table building, the
variable staging API `SetData`, uploads and activation) and the vertex,
geometry and compute stage specializations.  Machine integers are
modelled as `Nat` (with an explicit `% 2^32` where unsigned overflow can
matter), staging memory as `List Nat` of bytes, the `std::unordered_map`
tables as association lists with insert-if-absent semantics, and calls
into the D3D11 device / device context as an explicit trace of
`DeviceCall` events.
-/

set_option autoImplicit false

/-! ## Data model (SimpleShader.h structures, as used by SimpleShader.cpp) -/

/-- One byte of staging memory (value range 0-255 in the program; no
operation modelled here depends on the bound). -/
abbrev Byte := Nat

/-- Mirror of `SimpleShaderVariable`: one named field inside one constant
buffer (owning buffer index, byte offset, reflected byte size). -/
structure SimpleShaderVariable where
  ConstantBufferIndex : Nat
  ByteOffset : Nat
  Size : Nat
  deriving Repr, DecidableEq

/-- Mirror of `D3D11_CBUFFER_TYPE`: the reflected kind of a buffer.  Only
`ctCBuffer` (`D3D11_CT_CBUFFER`) is bound at activation time. -/
inductive CBufferD3DType where
  | ctCBuffer
  | ctTBuffer
  | ctInterfacePointers
  | ctResourceBindInfo
  deriving Repr, DecidableEq

/-- Mirror of `SimpleConstantBuffer`.  The C++ field `Type` is named
`CBType` here (`Type` is reserved in Lean); the GPU-side
`ID3D11Buffer` handle is identified by the buffer's `Name` in device
call traces. -/
structure SimpleConstantBuffer where
  BindIndex : Nat
  Name : String
  CBType : CBufferD3DType
  Size : Nat
  LocalDataBuffer : List Byte
  Variables : List SimpleShaderVariable
  deriving Repr, DecidableEq

/-- Mirror of `SimpleSRV` (texture resource descriptor). -/
structure SimpleSRV where
  Index : Nat
  BindIndex : Nat
  deriving Repr, DecidableEq

/-- Mirror of `SimpleSampler` (sampler descriptor). -/
structure SimpleSampler where
  Index : Nat
  BindIndex : Nat
  deriving Repr, DecidableEq

/-- The mutable state of an `ISimpleShader` object: the validity flag,
the constant buffer store and the name-to-descriptor tables.
`cbTable` stores the index of the buffer inside `constantBuffers`
(the C++ stores a pointer `&constantBuffers[b]`). -/
structure ISimpleShaderState where
  shaderValid : Bool
  constantBuffers : List SimpleConstantBuffer
  varTable : List (String × SimpleShaderVariable)
  cbTable : List (String × Nat)
  textureTable : List (String × SimpleSRV)
  samplerTable : List (String × SimpleSampler)
  shaderResourceViews : List SimpleSRV
  samplerStates : List SimpleSampler
  deriving Repr, DecidableEq

/-- State produced by the `ISimpleShader` constructor (empty tables,
`shaderValid = false`); also the observable state after `CleanUp`. -/
def initState : ISimpleShaderState :=
  { shaderValid := false
    constantBuffers := []
    varTable := []
    cbTable := []
    textureTable := []
    samplerTable := []
    shaderResourceViews := []
    samplerStates := [] }

/-! ## Table and staging-memory primitives -/

/-- Insert-if-absent, the semantics of `std::unordered_map::insert`: an
existing key keeps its first-inserted value. -/
def mapInsert {α : Type} (tbl : List (String × α)) (k : String) (v : α) :
    List (String × α) :=
  match tbl.lookup k with
  | some _ => tbl
  | none => tbl ++ [(k, v)]

/-- Apply `f` to the element at index `i`, leaving the list unchanged
when the index is out of range. -/
def modifyIdx {α : Type} (l : List α) (i : Nat) (f : α → α) : List α :=
  match l, i with
  | [], _ => []
  | x :: xs, 0 => f x :: xs
  | x :: xs, i + 1 => x :: modifyIdx xs i f

/-- Model of `memcpy(dst + off, src, src.length)`: overwrite the bytes of
`dst` at positions `off, off+1, ...` with the bytes of `src`
(positions beyond the end of `dst` are dropped, `List.set` is a no-op
out of range; the well-formed states reached by the program never hit
that case). -/
def writeBytes (dst : List Byte) (off : Nat) : List Byte → List Byte
  | [] => dst
  | b :: rest => writeBytes (dst.set off b) (off + 1) rest

/-! ## ISimpleShader: variable lookup and the staging API -/

/-- Mirror of `ISimpleShader::FindVariable(name, size)`: looks up `name`
in the variable table and, when `size > 0`, also checks the reflected
size matches (`size = -1` bypasses the check). -/
def ISimpleShader.FindVariable (s : ISimpleShaderState) (name : String)
    (size : Int) : Option SimpleShaderVariable :=
  match s.varTable.lookup name with
  | none => none
  | some var => if size > 0 ∧ (var.Size : Int) ≠ size then none else some var

/-- Mirror of `ISimpleShader::FindConstantBuffer(name)`. -/
def ISimpleShader.FindConstantBuffer (s : ISimpleShaderState) (name : String) :
    Option SimpleConstantBuffer :=
  match s.cbTable.lookup name with
  | none => none
  | some i => s.constantBuffers[i]?

/-- Mirror of `ISimpleShader::SetData(name, data, size)`: look up the
variable (size check bypassed with `-1`), fail if `size` exceeds the
reflected size, otherwise `memcpy` the first `size` bytes of `data`
into the owning buffer's staging array at the variable's byte
offset. -/
def ISimpleShader.SetData (s : ISimpleShaderState) (name : String)
    (data : List Byte) (size : Nat) : Bool × ISimpleShaderState :=
  match ISimpleShader.FindVariable s name (-1) with
  | none => (false, s)
  | some var =>
    if size > var.Size then (false, s)
    else
      (true,
        { s with
          constantBuffers := modifyIdx s.constantBuffers var.ConstantBufferIndex
            (fun cb =>
              { cb with
                LocalDataBuffer :=
                  writeBytes cb.LocalDataBuffer var.ByteOffset (data.take size) }) })

/-- Mirror of `ISimpleShader::HasVariable(name)`. -/
def ISimpleShader.HasVariable (s : ISimpleShaderState) (name : String) : Bool :=
  (ISimpleShader.FindVariable s name (-1)).isSome

/-- Mirror of `ISimpleShader::GetVariableInfo(name)`. -/
def ISimpleShader.GetVariableInfo (s : ISimpleShaderState) (name : String) :
    Option SimpleShaderVariable :=
  ISimpleShader.FindVariable s name (-1)

/-- Mirror of `ISimpleShader::GetShaderResourceViewInfo(name)`. -/
def ISimpleShader.GetShaderResourceViewInfo (s : ISimpleShaderState)
    (name : String) : Option SimpleSRV :=
  s.textureTable.lookup name

/-- Mirror of `ISimpleShader::GetSamplerInfo(name)`. -/
def ISimpleShader.GetSamplerInfo (s : ISimpleShaderState) (name : String) :
    Option SimpleSampler :=
  s.samplerTable.lookup name

/-- Mirror of `ISimpleShader::GetBufferInfo(name)`. -/
def ISimpleShader.GetBufferInfo (s : ISimpleShaderState) (name : String) :
    Option SimpleConstantBuffer :=
  ISimpleShader.FindConstantBuffer s name

/-- Mirror of `ISimpleShader::GetBufferInfo(index)`. -/
def ISimpleShader.GetBufferInfoIdx (s : ISimpleShaderState) (index : Nat) :
    Option SimpleConstantBuffer :=
  if index ≥ s.constantBuffers.length then none else s.constantBuffers[index]?

/-! ## Reflected shader description (what `D3DReflect` reports) -/

/-- Mirror of `D3D11_SHADER_VARIABLE_DESC` (the fields the program
reads). -/
structure ShaderVarDesc where
  Name : String
  StartOffset : Nat
  Size : Nat
  deriving Repr, DecidableEq

/-- Mirror of one reflected constant buffer:
`D3D11_SHADER_BUFFER_DESC` (name, size, type, variables) together
with the `BindPoint` that `GetResourceBindingDescByName` reports for
it. -/
structure ShaderBufferDesc where
  Name : String
  Size : Nat
  CBType : CBufferD3DType
  BindPoint : Nat
  Variables : List ShaderVarDesc
  deriving Repr, DecidableEq

/-- Mirror of `D3D_SHADER_INPUT_TYPE` (the constructors the program
switches on, plus a catch-all for every other reflected kind). -/
inductive ShaderInputType where
  | sitTexture
  | sitStructured
  | sitSampler
  | sitUAVAppendStructured
  | sitUAVConsumeStructured
  | sitUAVRWByteAddress
  | sitUAVRWStructured
  | sitUAVRWStructuredWithCounter
  | sitUAVRWTyped
  | sitOther
  deriving Repr, DecidableEq

/-- Mirror of `D3D11_SHADER_INPUT_BIND_DESC` (the fields the program
reads).  The C++ field `Type` is named `SIType` here. -/
structure ResourceBindDesc where
  Name : String
  BindPoint : Nat
  SIType : ShaderInputType
  deriving Repr, DecidableEq

/-- Mirror of `D3D_REGISTER_COMPONENT_TYPE` for signature parameters. -/
inductive RegComponentType where
  | uint32
  | sint32
  | float32
  | otherComponentType
  deriving Repr, DecidableEq

/-- Mirror of `D3D11_SIGNATURE_PARAMETER_DESC` (the fields the program
reads).  The semantic name is kept as a `List Char`. -/
structure SigParamDesc where
  SemanticName : List Char
  SemanticIndex : Nat
  Mask : Nat
  ComponentType : RegComponentType
  Stream : Nat
  deriving Repr, DecidableEq

/-- The reflected description of one shader binary: everything
`ISimpleShader::LoadShaderFile` and the stage specializations read
from `ID3D11ShaderReflection`. -/
structure ShaderDesc where
  ConstantBuffers : List ShaderBufferDesc
  BoundResources : List ResourceBindDesc
  InputParameters : List SigParamDesc
  OutputParameters : List SigParamDesc
  ThreadsX : Nat
  ThreadsY : Nat
  ThreadsZ : Nat
  deriving Repr, DecidableEq

/-! ## LoadShaderFile: building the tables from the reflected data -/

/-- The bound-resource loop of `ISimpleShader::LoadShaderFile`:
textures and structured buffers populate the texture table and the
SRV list, samplers the sampler table and the sampler list, with
`Index` equal to the list size at insertion time. -/
def processResources : List ResourceBindDesc → ISimpleShaderState →
    ISimpleShaderState
  | [], s => s
  | r :: rest, s =>
    match r.SIType with
    | .sitStructured | .sitTexture =>
      let srv : SimpleSRV :=
        { BindIndex := r.BindPoint, Index := s.shaderResourceViews.length }
      processResources rest
        { s with
          textureTable := mapInsert s.textureTable r.Name srv
          shaderResourceViews := s.shaderResourceViews ++ [srv] }
    | .sitSampler =>
      let samp : SimpleSampler :=
        { BindIndex := r.BindPoint, Index := s.samplerStates.length }
      processResources rest
        { s with
          samplerTable := mapInsert s.samplerTable r.Name samp
          samplerStates := s.samplerStates ++ [samp] }
    | _ => processResources rest s

/-- The inner variable loop of `LoadShaderFile` for buffer index `b`:
each reflected variable is inserted into the variable table. -/
def insertVars (b : Nat) : List ShaderVarDesc →
    List (String × SimpleShaderVariable) → List (String × SimpleShaderVariable)
  | [], tbl => tbl
  | v :: vs, tbl =>
    insertVars b vs
      (mapInsert tbl v.Name
        { ConstantBufferIndex := b, ByteOffset := v.StartOffset, Size := v.Size })

/-- The constant-buffer loop of `LoadShaderFile`, starting at buffer
index `b`: each reflected buffer gets a descriptor with a
zero-initialized staging array of the reflected size, an entry in the
cb table, and its variables recorded in the variable table and in the
buffer's own list. -/
def loadCBLoop : Nat → List ShaderBufferDesc → ISimpleShaderState →
    ISimpleShaderState
  | _, [], s => s
  | b, bd :: rest, s =>
    let cb : SimpleConstantBuffer :=
      { BindIndex := bd.BindPoint
        Name := bd.Name
        CBType := bd.CBType
        Size := bd.Size
        LocalDataBuffer := List.replicate bd.Size 0
        Variables := bd.Variables.map
          (fun v =>
            { ConstantBufferIndex := b, ByteOffset := v.StartOffset
              Size := v.Size }) }
    loadCBLoop (b + 1) rest
      { s with
        constantBuffers := s.constantBuffers ++ [cb]
        cbTable := mapInsert s.cbTable bd.Name b
        varTable := insertVars b bd.Variables s.varTable }

/-- All reflected variable names of a buffer list, in reflection
order (the order `LoadShaderFile` inserts them). -/
def varNames (bds : List ShaderBufferDesc) : List String :=
  (bds.map (fun bd => bd.Variables.map ShaderVarDesc.Name)).flatten

/-- Mirror of `ISimpleShader::LoadShaderFile`: `fileOk` models the
result of `D3DReadFileToBlob`, `createOk` the result of the
stage-specific `CreateShader` (which runs `CleanUp` first, so a
failed creation leaves the constructor-fresh empty state).  On
success the tables are built from the reflected description. -/
def ISimpleShader.LoadShaderFile (fileOk createOk : Bool) (desc : ShaderDesc) :
    Bool × ISimpleShaderState :=
  if fileOk = false then (false, initState)
  else if createOk = false then (false, initState)
  else
    (true,
      loadCBLoop 0 desc.ConstantBuffers
        (processResources desc.BoundResources { initState with shaderValid := true }))

/-! ## Device / device-context calls (observable side effects) -/

/-- One call issued to the D3D11 device or device context.  GPU buffer
handles are identified by the owning constant buffer's name. -/
inductive DeviceCall where
  | updateSubresource (bufferName : String) (bytes : List Byte)
  | setShaderOnStage
  | iaSetInputLayout
  | setConstantBuffersOnStage (slot : Nat)
  | setShaderResourcesOnStage (slot : Nat)
  | setSamplersOnStage (slot : Nat)
  | csSetUnorderedAccessViews (slot : Nat) (offset : Nat)
  | dispatch (x y z : Nat)
  | createBuffer (byteWidth : Nat)
  | soSetTargets (count : Nat)
  deriving Repr, DecidableEq

/-- Constant-buffer binding loop shared by every `SetShaderAndCBs`
override: buffers whose reflected kind is not `D3D11_CT_CBUFFER` are
skipped, the rest are bound at their reflected bind slot. -/
def bindCBs : List SimpleConstantBuffer → List DeviceCall
  | [] => []
  | cb :: rest =>
    if cb.CBType ≠ CBufferD3DType.ctCBuffer then bindCBs rest
    else DeviceCall.setConstantBuffersOnStage cb.BindIndex :: bindCBs rest

/-- Mirror of the `SetShaderAndCBs` overrides (vertex shaders also set
the input layout first; `withLayout` selects that variant): set the
shader object on the owning stage, then bind the true constant
buffers. -/
def SetShaderAndCBs (withLayout : Bool) (s : ISimpleShaderState) :
    List DeviceCall :=
  if s.shaderValid = false then []
  else
    (if withLayout then [DeviceCall.iaSetInputLayout] else []) ++
      DeviceCall.setShaderOnStage :: bindCBs s.constantBuffers

/-- Mirror of `ISimpleShader::SetShader`: no-op when invalid, else
delegate to the `SetShaderAndCBs` override. -/
def ISimpleShader.SetShader (withLayout : Bool) (s : ISimpleShaderState) :
    List DeviceCall :=
  if s.shaderValid = false then [] else SetShaderAndCBs withLayout s

/-- Mirror of `ISimpleShader::CopyAllBufferData`: no-op when invalid,
else one `UpdateSubresource` per constant buffer pushing its staging
bytes. -/
def ISimpleShader.CopyAllBufferData (s : ISimpleShaderState) :
    List DeviceCall :=
  if s.shaderValid = false then []
  else s.constantBuffers.map
    (fun cb => DeviceCall.updateSubresource cb.Name cb.LocalDataBuffer)

/-- Mirror of `ISimpleShader::CopyBufferData(index)`: no-op when invalid
or the index is out of range. -/
def ISimpleShader.CopyBufferData (s : ISimpleShaderState) (index : Nat) :
    List DeviceCall :=
  if s.shaderValid = false then []
  else if index ≥ s.constantBuffers.length then []
  else match s.constantBuffers[index]? with
    | none => []
    | some cb => [DeviceCall.updateSubresource cb.Name cb.LocalDataBuffer]

/-- Mirror of `ISimpleShader::CopyBufferData(bufferName)`: no-op when
invalid or the name is unknown. -/
def ISimpleShader.CopyBufferDataName (s : ISimpleShaderState)
    (bufferName : String) : List DeviceCall :=
  if s.shaderValid = false then []
  else match ISimpleShader.FindConstantBuffer s bufferName with
    | none => []
    | some cb => [DeviceCall.updateSubresource cb.Name cb.LocalDataBuffer]

/-- Mirror of the per-stage `SetShaderResourceView(name, srv)`
overrides: resolve the name in the texture table; on a hit bind at
the resolved slot on the owning stage, on a miss return false with no
device call. -/
def SetShaderResourceView (s : ISimpleShaderState) (name : String) :
    Bool × List DeviceCall :=
  match ISimpleShader.GetShaderResourceViewInfo s name with
  | none => (false, [])
  | some srvInfo => (true, [DeviceCall.setShaderResourcesOnStage srvInfo.BindIndex])

/-- Mirror of the per-stage `SetSamplerState(name, samplerState)`
overrides. -/
def SetSamplerState (s : ISimpleShaderState) (name : String) :
    Bool × List DeviceCall :=
  match ISimpleShader.GetSamplerInfo s name with
  | none => (false, [])
  | some sampInfo => (true, [DeviceCall.setSamplersOnStage sampInfo.BindIndex])

/-! ## SimpleComputeShader -/

/-- State of a `SimpleComputeShader`: the base state plus the UAV table
and the reflected thread-group dimensions. -/
structure SimpleComputeShaderState where
  base : ISimpleShaderState
  uavTable : List (String × Nat)
  threadsX : Nat
  threadsY : Nat
  threadsZ : Nat
  threadsTotal : Nat
  deriving Repr, DecidableEq

/-- The UAV loop of `SimpleComputeShader::CreateShader`: every reflected
resource of any UAV kind is recorded (name to bind point). -/
def uavLoop : List ResourceBindDesc → List (String × Nat) →
    List (String × Nat)
  | [], tbl => tbl
  | r :: rest, tbl =>
    match r.SIType with
    | .sitUAVAppendStructured | .sitUAVConsumeStructured
    | .sitUAVRWByteAddress | .sitUAVRWStructured
    | .sitUAVRWStructuredWithCounter | .sitUAVRWTyped =>
      uavLoop rest (mapInsert tbl r.Name r.BindPoint)
    | _ => uavLoop rest tbl

/-- State after the `SimpleComputeShader` constructor (before loading)
and also after a failed load: empty tables, zero thread counts. -/
def initComputeState : SimpleComputeShaderState :=
  { base := initState, uavTable := [], threadsX := 0, threadsY := 0
    threadsZ := 0, threadsTotal := 0 }

/-- Mirror of `SimpleComputeShader`'s load: the base `LoadShaderFile`
(whose `CreateShader` override, when the shader object was created,
stores the reflected thread-group sizes and fills the UAV table;
`CleanUp` ran first, clearing the UAV table).  On any failure the
observable state is the empty one. -/
def SimpleComputeShader.Load (fileOk createOk : Bool) (desc : ShaderDesc) :
    Bool × SimpleComputeShaderState :=
  match ISimpleShader.LoadShaderFile fileOk createOk desc with
  | (false, _) => (false, initComputeState)
  | (true, s) =>
    (true,
      { base := s
        uavTable := uavLoop desc.BoundResources []
        threadsX := desc.ThreadsX
        threadsY := desc.ThreadsY
        threadsZ := desc.ThreadsZ
        threadsTotal := desc.ThreadsX * desc.ThreadsY * desc.ThreadsZ })

/-- Mirror of `SimpleComputeShader::GetUnorderedAccessViewIndex(name)`:
the bind point, or `-1` when the name is unknown. -/
def SimpleComputeShader.GetUnorderedAccessViewIndex
    (s : SimpleComputeShaderState) (name : String) : Int :=
  match s.uavTable.lookup name with
  | none => -1
  | some idx => idx

/-- Mirror of `SimpleComputeShader::HasUnorderedAccessView(name)`. -/
def SimpleComputeShader.HasUnorderedAccessView
    (s : SimpleComputeShaderState) (name : String) : Bool :=
  SimpleComputeShader.GetUnorderedAccessViewIndex s name ≠ -1

/-- Mirror of `SimpleComputeShader::SetUnorderedAccessView(name, uav,
appendConsumeOffset)`: resolve the name; on a hit bind at the
resolved slot with the given counter offset, on a miss return false
with no device call. -/
def SimpleComputeShader.SetUnorderedAccessView
    (s : SimpleComputeShaderState) (name : String)
    (appendConsumeOffset : Nat) : Bool × List DeviceCall :=
  let bindIndex := SimpleComputeShader.GetUnorderedAccessViewIndex s name
  if bindIndex = -1 then (false, [])
  else (true, [DeviceCall.csSetUnorderedAccessViews bindIndex.toNat appendConsumeOffset])

/-- Mirror of `SimpleComputeShader::DispatchByGroups(gx, gy, gz)`:
issues `deviceContext->Dispatch` with exactly the given group counts,
with no validity check. -/
def SimpleComputeShader.DispatchByGroups (s : SimpleComputeShaderState)
    (groupsX groupsY groupsZ : Nat) : List DeviceCall :=
  let _ := s
  [DeviceCall.dispatch groupsX groupsY groupsZ]

/-! ## SimpleVertexShader: input-layout synthesis -/

/-- The `"_PER_INSTANCE"` marker string checked against the tail of each
input semantic name. -/
def perInstanceStr : List Char :=
  ['_', 'P', 'E', 'R', '_', 'I', 'N', 'S', 'T', 'A', 'N', 'C', 'E']

/-- The per-instance test of `SimpleVertexShader::CreateShader`:
`lenDiff = sem.size() - perInstanceStr.size()` must be nonnegative
and the characters of `sem` from position `lenDiff` on must equal the
marker (`std::string::compare(lenDiff, len, marker) == 0`). -/
def isPerInstance (sem : List Char) : Bool :=
  let lenDiff : Int := (sem.length : Int) - (perInstanceStr.length : Int)
  lenDiff ≥ 0 && sem.drop (sem.length - perInstanceStr.length) == perInstanceStr

/-- Mirror of `DXGI_FORMAT` restricted to the twelve formats the
synthesis can pick, plus the zero-initialized default. -/
inductive DXGIFormat where
  | unknownFormat
  | r32Uint | r32Sint | r32Float
  | r32g32Uint | r32g32Sint | r32g32Float
  | r32g32b32Uint | r32g32b32Sint | r32g32b32Float
  | r32g32b32a32Uint | r32g32b32a32Sint | r32g32b32a32Float
  deriving Repr, DecidableEq

/-- Mirror of `D3D11_INPUT_CLASSIFICATION`. -/
inductive InputSlotKind where
  | perVertexData
  | perInstanceData
  deriving Repr, DecidableEq

/-- Mirror of `D3D11_APPEND_ALIGNED_ELEMENT` (0xffffffff). -/
def appendAlignedElement : Nat := 4294967295

/-- Mirror of `D3D11_INPUT_ELEMENT_DESC` (the fields the synthesis
writes).  The C++ field `InputSlotClass` is named `InputSlotKindOf`
here. -/
structure InputElementDesc where
  SemanticName : List Char
  SemanticIndex : Nat
  InputSlot : Nat
  AlignedByteOffset : Nat
  InputSlotKindOf : InputSlotKind
  InstanceDataStepRate : Nat
  Format : DXGIFormat
  deriving Repr, DecidableEq

/-- The format selection of `SimpleVertexShader::CreateShader`: the
component mask (`== 1`, `<= 3`, `<= 7`, `<= 15`) crossed with the
scalar component type; any other combination leaves the
zero-initialized format. -/
def chooseFormat (mask : Nat) (ct : RegComponentType) : DXGIFormat :=
  if mask = 1 then
    match ct with
    | .uint32 => .r32Uint
    | .sint32 => .r32Sint
    | .float32 => .r32Float
    | _ => .unknownFormat
  else if mask ≤ 3 then
    match ct with
    | .uint32 => .r32g32Uint
    | .sint32 => .r32g32Sint
    | .float32 => .r32g32Float
    | _ => .unknownFormat
  else if mask ≤ 7 then
    match ct with
    | .uint32 => .r32g32b32Uint
    | .sint32 => .r32g32b32Sint
    | .float32 => .r32g32b32Float
    | _ => .unknownFormat
  else if mask ≤ 15 then
    match ct with
    | .uint32 => .r32g32b32a32Uint
    | .sint32 => .r32g32b32a32Sint
    | .float32 => .r32g32b32a32Float
    | _ => .unknownFormat
  else .unknownFormat

/-- One element of the synthesized input layout. -/
def mkInputElement (p : SigParamDesc) : InputElementDesc :=
  let isPI := isPerInstance p.SemanticName
  { SemanticName := p.SemanticName
    SemanticIndex := p.SemanticIndex
    InputSlot := if isPI then 1 else 0
    AlignedByteOffset := appendAlignedElement
    InputSlotKindOf := if isPI then .perInstanceData else .perVertexData
    InstanceDataStepRate := if isPI then 1 else 0
    Format := chooseFormat p.Mask p.ComponentType }

/-- The input-signature loop of `SimpleVertexShader::CreateShader`:
builds the element descriptions and accumulates the
`perInstanceCompatible` flag (set to true when any entry is
per-instance, never reset). -/
def buildInputLayoutDesc : List SigParamDesc → Bool →
    List InputElementDesc × Bool
  | [], flag => ([], flag)
  | p :: rest, flag =>
    let isPI := isPerInstance p.SemanticName
    let (elems, flagOut) := buildInputLayoutDesc rest (flag || isPI)
    (mkInputElement p :: elems, flagOut)

/-- Result of `SimpleVertexShader::CreateShader`: the returned bool
(which becomes `shaderValid`), the input layout (`none` for a null
`ID3D11InputLayout`) and the `perInstanceCompatible` flag. -/
structure VertexCreateResult where
  result : Bool
  inputLayout : Option (List InputElementDesc)
  perInstanceCompatible : Bool
  deriving Repr, DecidableEq

/-- Mirror of `SimpleVertexShader::CreateShader`: `vsOk` models the
`CreateVertexShader` HRESULT, `layoutOk` the `CreateInputLayout`
HRESULT (whose value is never examined), `presetLayout` a
caller-supplied layout from the constructor overload and `flag`
the constructor-supplied `perInstanceCompatible` value.  With a
preset layout the synthesis is skipped; otherwise the layout is
synthesized from the input signature and the method returns true
whether or not `CreateInputLayout` succeeded. -/
def SimpleVertexShader.CreateShader (vsOk layoutOk : Bool)
    (presetLayout : Option (List InputElementDesc)) (flag : Bool)
    (inputSig : List SigParamDesc) : VertexCreateResult :=
  if vsOk = false then
    { result := false, inputLayout := presetLayout, perInstanceCompatible := flag }
  else
    match presetLayout with
    | some layout =>
      { result := true, inputLayout := some layout, perInstanceCompatible := flag }
    | none =>
      let (elems, flagOut) := buildInputLayoutDesc inputSig flag
      { result := true
        inputLayout := if layoutOk then some elems else none
        perInstanceCompatible := flagOut }

/-! ## SimpleGeometryShader: stream output -/

/-- Mirror of `D3D11_SO_DECLARATION_ENTRY` (the fields the program
writes). -/
structure SODeclEntry where
  SemanticIndex : Nat
  SemanticName : List Char
  Stream : Nat
  StartComponent : Nat
  OutputSlot : Nat
  ComponentCount : Nat
  deriving Repr, DecidableEq

/-- Mirror of `SimpleGeometryShader::CalcComponentCount(mask)`: counts
which of the four low mask bits are set. -/
def SimpleGeometryShader.CalcComponentCount (mask : Nat) : Nat :=
  (if mask &&& 1 = 1 then 1 else 0) +
    (if mask &&& 2 = 2 then 1 else 0) +
    (if mask &&& 4 = 4 then 1 else 0) +
    (if mask &&& 8 = 8 then 1 else 0)

/-- The output-signature loop of
`SimpleGeometryShader::CreateShaderWithStreamOut`: one declaration
entry per output parameter and the running vertex size
(`ComponentCount * sizeof(float)` summed over all entries). -/
def buildSODecl : List SigParamDesc → List SODeclEntry × Nat
  | [] => ([], 0)
  | p :: rest =>
    let entry : SODeclEntry :=
      { SemanticIndex := p.SemanticIndex
        SemanticName := p.SemanticName
        Stream := p.Stream
        StartComponent := 0
        OutputSlot := 0
        ComponentCount := SimpleGeometryShader.CalcComponentCount p.Mask }
    let (entries, size) := buildSODecl rest
    (entry :: entries, entry.ComponentCount * 4 + size)

/-- State of a `SimpleGeometryShader`: the base state plus the
stream-output configuration fixed at construction and the computed
vertex size. -/
structure SimpleGeometryShaderState where
  base : ISimpleShaderState
  useStreamOut : Bool
  allowStreamOutRasterization : Bool
  streamOutVertexSize : Nat
  deriving Repr, DecidableEq

/-- Mirror of `SimpleGeometryShader::CreateShaderWithStreamOut`
restricted to its observable outcome: the stream-output declaration
built from the output signature, the stored vertex size, and the
result of `CreateGeometryShaderWithStreamOutput` (`createOk`). -/
def SimpleGeometryShader.CreateShaderWithStreamOut
    (s : SimpleGeometryShaderState) (createOk : Bool) (desc : ShaderDesc) :
    Bool × SimpleGeometryShaderState × List SODeclEntry :=
  let (soDecl, size) := buildSODecl desc.OutputParameters
  (createOk, { s with streamOutVertexSize := size }, soDecl)

/-- Mirror of `SimpleGeometryShader::CreateCompatibleStreamOutBuffer`:
refuse immediately (no buffer creation attempted) unless stream
output was requested at construction, the shader is valid and the
computed vertex size is nonzero; otherwise request a GPU buffer of
`streamOutVertexSize * vertexCount` bytes (32-bit unsigned
arithmetic) and return whether creation succeeded.  `createOk` models
the device's `CreateBuffer` HRESULT for the requested byte width. -/
def SimpleGeometryShader.CreateCompatibleStreamOutBuffer
    (s : SimpleGeometryShaderState) (createOk : Nat → Bool)
    (vertexCount : Nat) : Bool × List DeviceCall :=
  if s.useStreamOut = false ∨ s.base.shaderValid = false ∨
      s.streamOutVertexSize = 0 then
    (false, [])
  else
    let byteWidth := s.streamOutVertexSize * vertexCount % 2 ^ 32
    (createOk byteWidth, [DeviceCall.createBuffer byteWidth])

/-- Mirror of `SimpleGeometryShader::UnbindStreamOutStage`: unbinds all
four stream-output target slots. -/
def SimpleGeometryShader.UnbindStreamOutStage : List DeviceCall :=
  [DeviceCall.soSetTargets 4]

/-! ## Lifetime operations on a loaded program -/

/-- One public post-build operation on an `ISimpleShader`.  The typed
setters (`SetInt`, `SetFloat`, ..., `SetMatrix4x4`) are thin wrappers
that call `SetData` with the type's natural byte width, so `setData`
covers them. -/
inductive ShaderOp where
  | setData (name : String) (data : List Byte) (size : Nat)
  | setShader (withLayout : Bool)
  | copyAllBufferData
  | copyBufferData (index : Nat)
  | copyBufferDataName (name : String)
  | setShaderResourceView (name : String)
  | setSamplerState (name : String)
  deriving Repr, DecidableEq

/-- Effect of one operation on the CPU-side state.  Only `SetData` (and
the typed setters that wrap it) mutates the state; activation,
uploads and resource/sampler binds read it and issue device calls
(`ISimpleShader.SetShader`, `CopyAllBufferData`, `CopyBufferData`,
`SetShaderResourceView`, `SetSamplerState` above). -/
def applyOp (s : ISimpleShaderState) : ShaderOp → ISimpleShaderState
  | .setData name data size => (ISimpleShader.SetData s name data size).2
  | .setShader _ => s
  | .copyAllBufferData => s
  | .copyBufferData _ => s
  | .copyBufferDataName _ => s
  | .setShaderResourceView _ => s
  | .setSamplerState _ => s

/-- Running a sequence of post-build operations. -/
def runOps (s : ISimpleShaderState) (ops : List ShaderOp) : ISimpleShaderState :=
  ops.foldl applyOp s

/-! ## Concrete fixtures used to evaluate the definitions -/

/-- A small reflected description: two constant buffers with three
variables, one texture and one sampler, and a `[numthreads(5,2,2)]`
thread-group declaration. -/
def sampleDesc : ShaderDesc :=
  { ConstantBuffers :=
      [{ Name := "PerFrame", Size := 8, CBType := .ctCBuffer, BindPoint := 0
         Variables := [⟨"viewScale", 0, 4⟩, ⟨"tint", 4, 4⟩] },
       { Name := "PerObject", Size := 4, CBType := .ctCBuffer, BindPoint := 1
         Variables := [⟨"worldScale", 0, 4⟩] }]
    BoundResources :=
      [⟨"AlbedoMap", 0, .sitTexture⟩, ⟨"BasicSampler", 0, .sitSampler⟩,
       ⟨"OutBuffer", 0, .sitUAVRWTyped⟩]
    InputParameters := []
    OutputParameters := []
    ThreadsX := 5, ThreadsY := 2, ThreadsZ := 2 }

/-- The state of a program that loaded `sampleDesc` successfully. -/
def sampleState : ISimpleShaderState :=
  (ISimpleShader.LoadShaderFile true true sampleDesc).2

/-- A reflected description with a two-entry output signature (masks
`1111b` and `111b`), as a geometry shader with stream output would
see it. -/
def sampleGeoDesc : ShaderDesc :=
  { sampleDesc with
    OutputParameters :=
      [⟨"SV_POSITION".toList, 0, 15, .float32, 0⟩,
       ⟨"TEXCOORD".toList, 0, 7, .float32, 0⟩] }

/-- A geometry program built with stream output from `sampleGeoDesc`. -/
def sampleGeoState : SimpleGeometryShaderState :=
  (SimpleGeometryShader.CreateShaderWithStreamOut
    { base := sampleState, useStreamOut := true
      allowStreamOutRasterization := true, streamOutVertexSize := 0 }
    true sampleGeoDesc).2.1

/-! # Helper lemmas -/

theorem length_writeBytes (src : List Byte) :
    ∀ dst off, (writeBytes dst off src).length = dst.length := by
  induction src with
  | nil => intro dst off; rfl
  | cons b rest ih =>
    intro dst off
    simp [writeBytes, ih, List.length_set]

theorem getElem?_writeBytes_lt (src : List Byte) :
    ∀ dst off i, i < off → (writeBytes dst off src)[i]? = dst[i]? := by
  induction src with
  | nil => intro dst off i _; rfl
  | cons b rest ih =>
    intro dst off i h
    rw [writeBytes, ih _ _ _ (Nat.lt_succ_of_lt h),
      List.getElem?_set_ne (Nat.ne_of_gt h)]

theorem getElem?_writeBytes_ge (src : List Byte) :
    ∀ dst off i, off + src.length ≤ i →
      (writeBytes dst off src)[i]? = dst[i]? := by
  induction src with
  | nil => intro dst off i _; rfl
  | cons b rest ih =>
    intro dst off i h
    simp only [List.length_cons] at h
    have hoff : off < i := by omega
    rw [writeBytes, ih _ _ _ (by omega),
      List.getElem?_set_ne (Nat.ne_of_lt hoff)]

theorem getElem?_writeBytes_mem (src : List Byte) :
    ∀ dst off i, off ≤ i → i < off + src.length → i < dst.length →
      (writeBytes dst off src)[i]? = src[i - off]? := by
  induction src with
  | nil => intro dst off i h1 h2 _; simp at h2; omega
  | cons b rest ih =>
    intro dst off i h1 h2 h3
    rcases Nat.eq_or_lt_of_le h1 with rfl | hlt
    · rw [writeBytes, getElem?_writeBytes_lt rest _ _ _ (by omega),
        Nat.sub_self]
      simp [List.getElem?_set_self h3]
    · rw [writeBytes]
      have := ih (dst.set off b) (off + 1) i hlt
        (by simpa [Nat.add_right_comm] using h2) (by simpa using h3)
      rw [this]
      have hio : i - off = (i - (off + 1)) + 1 := by omega
      simp [hio]

theorem length_modifyIdx {α : Type} (l : List α) (i : Nat) (f : α → α) :
    (modifyIdx l i f).length = l.length := by
  induction l generalizing i with
  | nil => rfl
  | cons x xs ih =>
    cases i with
    | zero => simp [modifyIdx]
    | succ j => simp [modifyIdx, ih]

theorem getElem?_modifyIdx_ne {α : Type} (l : List α) (i : Nat) (f : α → α)
    (j : Nat) (h : j ≠ i) : (modifyIdx l i f)[j]? = l[j]? := by
  induction l generalizing i j with
  | nil => rfl
  | cons x xs ih =>
    cases i with
    | zero =>
      cases j with
      | zero => exact absurd rfl h
      | succ j' => simp [modifyIdx]
    | succ i' =>
      cases j with
      | zero => simp [modifyIdx]
      | succ j' =>
        simp only [modifyIdx, List.getElem?_cons_succ]
        exact ih i' j' (by omega)

theorem getElem?_modifyIdx_self {α : Type} (l : List α) (i : Nat) (f : α → α) :
    (modifyIdx l i f)[i]? = (l[i]?).map f := by
  induction l generalizing i with
  | nil => rfl
  | cons x xs ih =>
    cases i with
    | zero => simp [modifyIdx]
    | succ i' => simpa [modifyIdx] using ih i'

/-! # Claim theorems -/

/-- C1: when `name` resolves to a variable of reflected size `var.Size`
at byte offset `var.ByteOffset` in constant buffer
`var.ConstantBufferIndex`, and the payload holds `size ≤ var.Size`
bytes, `SetData` returns true, the staging bytes of the owning buffer
in the range `[ByteOffset, ByteOffset + size)` become the payload
bytes, every staging byte of that buffer outside the range is
unchanged, and every other constant buffer is unchanged. -/
theorem ISimpleShader.SetData_copies (s : ISimpleShaderState) (name : String)
    (data : List Byte) (size : Nat) (var : SimpleShaderVariable)
    (cbB : SimpleConstantBuffer)
    (hfind : s.varTable.lookup name = some var)
    (hsize : size ≤ var.Size)
    (hdata : data.length = size)
    (hb : s.constantBuffers[var.ConstantBufferIndex]? = some cbB)
    (hfit : var.ByteOffset + var.Size ≤ cbB.LocalDataBuffer.length) :
    (ISimpleShader.SetData s name data size).1 = true ∧
      ∀ b cbOld cbNew, s.constantBuffers[b]? = some cbOld →
        (ISimpleShader.SetData s name data size).2.constantBuffers[b]? = some cbNew →
        (b ≠ var.ConstantBufferIndex → cbNew = cbOld) ∧
        (b = var.ConstantBufferIndex →
          (∀ j, var.ByteOffset ≤ j → j < var.ByteOffset + size →
            cbNew.LocalDataBuffer[j]? = data[j - var.ByteOffset]?) ∧
          (∀ j, j < var.ByteOffset ∨ var.ByteOffset + size ≤ j →
            cbNew.LocalDataBuffer[j]? = cbOld.LocalDataBuffer[j]?)) := by
  have hnogt : ¬ size > var.Size := Nat.not_lt.mpr hsize
  have hsd : ISimpleShader.SetData s name data size =
      (true,
        { s with
          constantBuffers := modifyIdx s.constantBuffers var.ConstantBufferIndex
            (fun cb =>
              { cb with
                LocalDataBuffer :=
                  writeBytes cb.LocalDataBuffer var.ByteOffset (data.take size) }) }) := by
    simp only [ISimpleShader.SetData, ISimpleShader.FindVariable, hfind]
    norm_num
    exact hsize
  rw [hsd]
  refine ⟨rfl, ?_⟩
  intro b cbOld cbNew hOld hNew
  constructor
  · intro hne
    rw [getElem?_modifyIdx_ne _ _ _ _ hne, hOld] at hNew
    exact (Option.some.injEq _ _ ▸ hNew).symm
  · intro hbeq
    subst hbeq
    rw [hb] at hOld
    have hOldEq : cbOld = cbB := by
      exact (Option.some.injEq _ _ ▸ hOld).symm
    subst hOldEq
    rw [getElem?_modifyIdx_self, hb] at hNew
    simp only [Option.map_some', Option.some.injEq] at hNew
    subst hNew
    have htlen : (data.take size).length = size := by
      rw [List.length_take, hdata, Nat.min_self]
    constructor
    · intro j hj1 hj2
      have hjlt : j < cbOld.LocalDataBuffer.length := by omega
      have := getElem?_writeBytes_mem (data.take size) cbOld.LocalDataBuffer
        var.ByteOffset j hj1 (by omega) hjlt
      rw [this, List.getElem?_take_of_lt (by omega)]
    · intro j hj
      rcases hj with hj | hj
      · exact getElem?_writeBytes_lt (data.take size) _ _ _ hj
      · exact getElem?_writeBytes_ge (data.take size) _ _ _ (by omega)

/-- C1 witness: writing 2 of the 4 bytes of variable `tint` (offset 4 in
buffer `PerFrame`) in the sample program. -/
theorem ISimpleShader.SetData_copies_witness :
    sampleState.varTable.lookup "tint" =
        some { ConstantBufferIndex := 0, ByteOffset := 4, Size := 4 } ∧
      (2 : Nat) ≤ 4 ∧
      ([17, 18] : List Byte).length = 2 ∧
      (∀ b cbOld cbNew, sampleState.constantBuffers[b]? = some cbOld →
        (ISimpleShader.SetData sampleState "tint" [17, 18] 2).2.constantBuffers[b]? =
            some cbNew →
        (b ≠ 0 → cbNew = cbOld) ∧
        (b = 0 →
          (∀ j, 4 ≤ j → j < 4 + 2 →
            cbNew.LocalDataBuffer[j]? = ([17, 18] : List Byte)[j - 4]?) ∧
          (∀ j, j < 4 ∨ 4 + 2 ≤ j →
            cbNew.LocalDataBuffer[j]? = cbOld.LocalDataBuffer[j]?))) := by
  refine ⟨by decide, by decide, by decide, ?_⟩
  exact (ISimpleShader.SetData_copies sampleState "tint" [17, 18] 2
    { ConstantBufferIndex := 0, ByteOffset := 4, Size := 4 }
    ((ISimpleShader.LoadShaderFile true true sampleDesc).2.constantBuffers.get
      ⟨0, by decide⟩)
    (by decide) (by decide) (by decide) (by decide) (by decide)).2

/-- C2: `SetData` returns false and leaves the whole state (in
particular every staging array) unchanged when the name is not in the
variable table or the supplied size exceeds the variable's reflected
size. -/
theorem ISimpleShader.SetData_fail (s : ISimpleShaderState) (name : String)
    (data : List Byte) (size : Nat)
    (h : s.varTable.lookup name = none ∨
      ∃ var, s.varTable.lookup name = some var ∧ var.Size < size) :
    ISimpleShader.SetData s name data size = (false, s) := by
  rcases h with h | ⟨var, hfind, hlt⟩
  · simp [ISimpleShader.SetData, ISimpleShader.FindVariable, h]
  · simp [ISimpleShader.SetData, ISimpleShader.FindVariable, hfind,
      Nat.lt_iff_add_one_le.mp hlt, hlt]

/-- C2 witness: an unknown name and an over-sized write in the sample
program both fail without touching the state. -/
theorem ISimpleShader.SetData_fail_witness :
    sampleState.varTable.lookup "missing" = none ∧
      ISimpleShader.SetData sampleState "missing" [1] 1 = (false, sampleState) ∧
      (∃ var, sampleState.varTable.lookup "tint" = some var ∧ var.Size < 5) ∧
      ISimpleShader.SetData sampleState "tint" [1, 2, 3, 4, 5] 5 =
        (false, sampleState) :=
  ⟨by decide,
    ISimpleShader.SetData_fail sampleState "missing" [1] 1 (Or.inl (by decide)),
    ⟨{ ConstantBufferIndex := 0, ByteOffset := 4, Size := 4 }, by decide, by decide⟩,
    ISimpleShader.SetData_fail sampleState "tint" [1, 2, 3, 4, 5] 5
      (Or.inr ⟨{ ConstantBufferIndex := 0, ByteOffset := 4, Size := 4 },
        by decide, by decide⟩)⟩

theorem isPerInstance_eq_true_iff (sem : List Char) :
    isPerInstance sem = true ↔ perInstanceStr <:+ sem := by
  unfold isPerInstance
  simp only [Bool.and_eq_true, decide_eq_true_eq, beq_iff_eq, ge_iff_le]
  constructor
  · rintro ⟨hle, hdrop⟩
    rw [List.suffix_iff_eq_drop]
    exact hdrop.symm
  · intro hsuf
    have hlen : perInstanceStr.length ≤ sem.length := hsuf.length_le
    refine ⟨?_, (List.suffix_iff_eq_drop.mp hsuf).symm⟩
    omega

theorem buildInputLayoutDesc_fst (sig : List SigParamDesc) :
    ∀ flag, (buildInputLayoutDesc sig flag).1 = sig.map mkInputElement := by
  induction sig with
  | nil => intro flag; rfl
  | cons p rest ih =>
    intro flag
    simp [buildInputLayoutDesc, ih]

theorem buildInputLayoutDesc_snd (sig : List SigParamDesc) :
    ∀ flag, (buildInputLayoutDesc sig flag).2 =
      (flag || sig.any (fun p => isPerInstance p.SemanticName)) := by
  induction sig with
  | nil => intro flag; simp [buildInputLayoutDesc]
  | cons p rest ih =>
    intro flag
    simp [buildInputLayoutDesc, ih, Bool.or_assoc]

/-- C5: in the synthesized input layout, an entry is placed on input
slot 1 with per-instance classification and instance step rate 1 if
and only if its semantic name ends with the `"_PER_INSTANCE"` marker;
every other entry keeps slot 0 with step rate 0; and the final
`perInstanceCompatible` flag is true exactly when the
constructor-supplied flag was true or at least one signature entry is
per-instance. -/
theorem SimpleVertexShader.inputLayoutSynthesis (sig : List SigParamDesc)
    (flag : Bool) :
    (∀ (i : Nat) (p : SigParamDesc) (e : InputElementDesc), sig[i]? = some p →
      (buildInputLayoutDesc sig flag).1[i]? = some e →
      ((e.InputSlot = 1 ∧ e.InputSlotKindOf = InputSlotKind.perInstanceData ∧
          e.InstanceDataStepRate = 1) ↔ perInstanceStr <:+ p.SemanticName) ∧
      (¬ perInstanceStr <:+ p.SemanticName →
        e.InputSlot = 0 ∧ e.InputSlotKindOf = InputSlotKind.perVertexData ∧
          e.InstanceDataStepRate = 0)) ∧
    ((buildInputLayoutDesc sig flag).2 = true ↔
      flag = true ∨ ∃ p ∈ sig, perInstanceStr <:+ p.SemanticName) := by
  constructor
  · intro i p e hp he
    rw [buildInputLayoutDesc_fst, List.getElem?_map, hp] at he
    simp only [Option.map_some', Option.some.injEq] at he
    subst he
    rw [← isPerInstance_eq_true_iff]
    unfold mkInputElement
    rcases h : isPerInstance p.SemanticName with _ | _
    · simp [h]
    · simp [h]
  · rw [buildInputLayoutDesc_snd]
    simp [List.any_eq_true, isPerInstance_eq_true_iff]

/-- C5 witness: a two-entry signature where only
`"WORLDMAT_PER_INSTANCE"` carries the marker. -/
theorem SimpleVertexShader.inputLayoutSynthesis_witness :
    ([⟨"POSITION".toList, 0, 7, .float32, 0⟩,
        ⟨"WORLDMAT_PER_INSTANCE".toList, 0, 15, .float32, 0⟩] :
          List SigParamDesc)[1]? =
        some ⟨"WORLDMAT_PER_INSTANCE".toList, 0, 15, .float32, 0⟩ ∧
      (buildInputLayoutDesc
            [⟨"POSITION".toList, 0, 7, .float32, 0⟩,
              ⟨"WORLDMAT_PER_INSTANCE".toList, 0, 15, .float32, 0⟩] false).1[1]? =
        some (mkInputElement ⟨"WORLDMAT_PER_INSTANCE".toList, 0, 15, .float32, 0⟩) ∧
      (((mkInputElement
            ⟨"WORLDMAT_PER_INSTANCE".toList, 0, 15, .float32, 0⟩).InputSlot = 1 ∧
          (mkInputElement
            ⟨"WORLDMAT_PER_INSTANCE".toList, 0, 15, .float32, 0⟩).InputSlotKindOf =
            InputSlotKind.perInstanceData ∧
          (mkInputElement
            ⟨"WORLDMAT_PER_INSTANCE".toList, 0, 15, .float32, 0⟩).InstanceDataStepRate =
            1) ↔
        perInstanceStr <:+ "WORLDMAT_PER_INSTANCE".toList) := by
  refine ⟨by decide, by decide, ?_⟩
  exact ((SimpleVertexShader.inputLayoutSynthesis
      [⟨"POSITION".toList, 0, 7, .float32, 0⟩,
        ⟨"WORLDMAT_PER_INSTANCE".toList, 0, 15, .float32, 0⟩] false).1
    1 ⟨"WORLDMAT_PER_INSTANCE".toList, 0, 15, .float32, 0⟩
    (mkInputElement ⟨"WORLDMAT_PER_INSTANCE".toList, 0, 15, .float32, 0⟩)
    (by decide) (by decide)).1

/-- C10: for a vertex program with no caller-supplied layout, the
result of `CreateShader` (which becomes the validity flag) equals the
vertex-shader creation result alone, whatever the input-layout
creation returned; in particular after a failed layout synthesis the
program reports success with a null input layout. -/
theorem SimpleVertexShader.CreateShader_ignores_layout_result
    (vsOk layoutOk flag : Bool) (presetLayout : Option (List InputElementDesc))
    (sig : List SigParamDesc) :
    (SimpleVertexShader.CreateShader vsOk layoutOk presetLayout flag sig).result =
        vsOk ∧
      (SimpleVertexShader.CreateShader true false none flag sig).result = true ∧
      (SimpleVertexShader.CreateShader true false none flag sig).inputLayout =
        none := by
  rcases hb : buildInputLayoutDesc sig flag with ⟨elems, flagOut⟩
  refine ⟨?_, ?_, ?_⟩
  · cases vsOk with
    | false => simp [SimpleVertexShader.CreateShader]
    | true =>
      cases presetLayout with
      | none => simp [SimpleVertexShader.CreateShader, hb]
      | some layout => simp [SimpleVertexShader.CreateShader]
  · simp [SimpleVertexShader.CreateShader, hb]
  · simp [SimpleVertexShader.CreateShader, hb]

theorem CalcComponentCount_eq_digits_sum :
    ∀ m < 16, SimpleGeometryShader.CalcComponentCount m = (Nat.digits 2 m).sum := by
  intro m hm
  interval_cases m <;>
    simp +decide [SimpleGeometryShader.CalcComponentCount, Nat.digits_def']

theorem CalcComponentCount_le_four (m : Nat) :
    SimpleGeometryShader.CalcComponentCount m ≤ 4 := by
  unfold SimpleGeometryShader.CalcComponentCount
  split <;> split <;> split <;> split <;> omega

theorem buildSODecl_snd (outs : List SigParamDesc) :
    (buildSODecl outs).2 =
      (outs.map
        (fun p => SimpleGeometryShader.CalcComponentCount p.Mask * 4)).sum := by
  induction outs with
  | nil => rfl
  | cons p rest ih => simp [buildSODecl, ih]

theorem buildSODecl_fst (outs : List SigParamDesc) :
    (buildSODecl outs).1 = outs.map
      (fun p =>
        { SemanticIndex := p.SemanticIndex, SemanticName := p.SemanticName
          Stream := p.Stream, StartComponent := 0, OutputSlot := 0
          ComponentCount := SimpleGeometryShader.CalcComponentCount p.Mask }) := by
  induction outs with
  | nil => rfl
  | cons p rest ih => simp [buildSODecl, ih]

/-- C6: building a geometry program with stream output stores a
per-vertex output stride equal to the sum over all output-signature
entries of (number of set bits of the component mask) * 4 bytes, and
every declaration entry's component count lies between 0 and 4
inclusive. -/
theorem SimpleGeometryShader.streamOutStride (s : SimpleGeometryShaderState)
    (createOk : Bool) (desc : ShaderDesc)
    (hmask : ∀ p ∈ desc.OutputParameters, p.Mask < 16) :
    (SimpleGeometryShader.CreateShaderWithStreamOut s createOk
          desc).2.1.streamOutVertexSize =
        (desc.OutputParameters.map
          (fun p => (Nat.digits 2 p.Mask).sum * 4)).sum ∧
      ∀ entry ∈ (SimpleGeometryShader.CreateShaderWithStreamOut s createOk
          desc).2.2, entry.ComponentCount ≤ 4 := by
  constructor
  · have : (SimpleGeometryShader.CreateShaderWithStreamOut s createOk
        desc).2.1.streamOutVertexSize = (buildSODecl desc.OutputParameters).2 := by
      unfold SimpleGeometryShader.CreateShaderWithStreamOut
      rcases h : buildSODecl desc.OutputParameters with ⟨decl, size⟩
      rfl
    rw [this, buildSODecl_snd]
    apply congrArg
    apply List.map_congr_left
    intro p hp
    rw [CalcComponentCount_eq_digits_sum p.Mask (hmask p hp)]
  · intro entry hentry
    have : (SimpleGeometryShader.CreateShaderWithStreamOut s createOk
        desc).2.2 = (buildSODecl desc.OutputParameters).1 := by
      unfold SimpleGeometryShader.CreateShaderWithStreamOut
      rcases h : buildSODecl desc.OutputParameters with ⟨decl, size⟩
      rfl
    rw [this, buildSODecl_fst] at hentry
    rcases List.mem_map.mp hentry with ⟨p, _, rfl⟩
    exact CalcComponentCount_le_four p.Mask

/-- C6 witness: output masks `1111b` and `111b` give a stride of
`(4 + 3) * 4 = 28` bytes. -/
theorem SimpleGeometryShader.streamOutStride_witness :
    (∀ p ∈ sampleGeoDesc.OutputParameters, p.Mask < 16) ∧
      (SimpleGeometryShader.CreateShaderWithStreamOut
            { base := sampleState, useStreamOut := true
              allowStreamOutRasterization := true, streamOutVertexSize := 0 }
            true sampleGeoDesc).2.1.streamOutVertexSize =
        (sampleGeoDesc.OutputParameters.map
          (fun p => (Nat.digits 2 p.Mask).sum * 4)).sum :=
  ⟨by decide,
    (SimpleGeometryShader.streamOutStride
      { base := sampleState, useStreamOut := true
        allowStreamOutRasterization := true, streamOutVertexSize := 0 }
      true sampleGeoDesc (by decide)).1⟩

/-- C9: `CreateCompatibleStreamOutBuffer` returns false without
attempting any buffer creation when stream output was not requested,
the program is invalid, or the stored vertex stride is zero;
otherwise it requests one GPU buffer of `stride * vertexCount` bytes
and returns the creation result. -/
theorem SimpleGeometryShader.CreateCompatibleStreamOutBuffer_spec
    (s : SimpleGeometryShaderState) (createOk : Nat → Bool)
    (vertexCount : Nat) :
    ((s.useStreamOut = false ∨ s.base.shaderValid = false ∨
        s.streamOutVertexSize = 0) →
      SimpleGeometryShader.CreateCompatibleStreamOutBuffer s createOk
          vertexCount = (false, [])) ∧
      (s.useStreamOut = true → s.base.shaderValid = true →
        s.streamOutVertexSize ≠ 0 →
        s.streamOutVertexSize * vertexCount < 2 ^ 32 →
        SimpleGeometryShader.CreateCompatibleStreamOutBuffer s createOk
            vertexCount =
          (createOk (s.streamOutVertexSize * vertexCount),
            [DeviceCall.createBuffer (s.streamOutVertexSize * vertexCount)])) := by
  constructor
  · intro h
    unfold SimpleGeometryShader.CreateCompatibleStreamOutBuffer
    rw [if_pos h]
  · intro h1 h2 h3 h4
    unfold SimpleGeometryShader.CreateCompatibleStreamOutBuffer
    rw [if_neg (by simp [h1, h2, h3]), Nat.mod_eq_of_lt h4]

/-- C9 witness: the sample geometry program (stride 28) with 100
vertices requests a 2800-byte buffer; with stream output disabled the
call refuses without touching the device. -/
theorem SimpleGeometryShader.CreateCompatibleStreamOutBuffer_witness :
    sampleGeoState.useStreamOut = true ∧
      sampleGeoState.base.shaderValid = true ∧
      sampleGeoState.streamOutVertexSize ≠ 0 ∧
      sampleGeoState.streamOutVertexSize * 100 < 2 ^ 32 ∧
      SimpleGeometryShader.CreateCompatibleStreamOutBuffer sampleGeoState
          (fun _ => true) 100 =
        (true, [DeviceCall.createBuffer (sampleGeoState.streamOutVertexSize * 100)]) :=
  ⟨by decide, by decide, by decide, by decide,
    (SimpleGeometryShader.CreateCompatibleStreamOutBuffer_spec sampleGeoState
      (fun _ => true) 100).2 (by decide) (by decide) (by decide) (by decide)⟩

theorem lookup_append_of_some {α : Type} (tbl l : List (String × α)) (k : String)
    (v : α) (h : tbl.lookup k = some v) : (tbl ++ l).lookup k = some v := by
  rw [List.lookup_append, h]
  rfl

theorem lookup_mapInsert_of_some {α : Type} (tbl : List (String × α))
    (k' : String) (v' : α) (k : String) (v : α) (h : tbl.lookup k = some v) :
    (mapInsert tbl k' v').lookup k = some v := by
  unfold mapInsert
  cases hl : tbl.lookup k' with
  | some _ => exact h
  | none => exact lookup_append_of_some tbl _ k v h

theorem lookup_mapInsert_self {α : Type} (tbl : List (String × α)) (k : String)
    (v : α) (h : tbl.lookup k = none) : (mapInsert tbl k v).lookup k = some v := by
  unfold mapInsert
  rw [h, List.lookup_append, h]
  simp

theorem lookup_mapInsert_of_none {α : Type} (tbl : List (String × α))
    (k' : String) (v' : α) (k : String) (hk : tbl.lookup k = none)
    (hne : k ≠ k') : (mapInsert tbl k' v').lookup k = none := by
  unfold mapInsert
  cases hl : tbl.lookup k' with
  | some _ => exact hk
  | none =>
    rw [List.lookup_append, hk]
    simp [List.lookup, beq_false_of_ne hne]

theorem insertVars_lookup_of_some (vs : List ShaderVarDesc) (b : Nat) :
    ∀ tbl k v, tbl.lookup k = some v → (insertVars b vs tbl).lookup k = some v := by
  induction vs with
  | nil => intro tbl k v h; exact h
  | cons w ws ih =>
    intro tbl k v h
    exact ih _ k v (lookup_mapInsert_of_some tbl w.Name _ k v h)

theorem insertVars_lookup_of_none (vs : List ShaderVarDesc) (b : Nat) :
    ∀ tbl k, tbl.lookup k = none → (∀ v ∈ vs, v.Name ≠ k) →
      (insertVars b vs tbl).lookup k = none := by
  induction vs with
  | nil => intro tbl k h _; exact h
  | cons w ws ih =>
    intro tbl k h hfresh
    refine ih _ k ?_ (fun v hv => hfresh v (List.mem_cons_of_mem w hv))
    exact lookup_mapInsert_of_none tbl w.Name _ k h
      (fun he => hfresh w (List.mem_cons_self w ws) he.symm)

theorem insertVars_lookup_self (vs : List ShaderVarDesc) (b : Nat) :
    ∀ tbl v, v ∈ vs → (vs.map ShaderVarDesc.Name).Nodup →
      tbl.lookup v.Name = none →
      (insertVars b vs tbl).lookup v.Name =
        some { ConstantBufferIndex := b, ByteOffset := v.StartOffset
               Size := v.Size } := by
  induction vs with
  | nil => intro tbl v hv; exact absurd hv (List.not_mem_nil v)
  | cons w ws ih =>
    intro tbl v hv hnodup hfresh
    rcases List.mem_cons.mp hv with rfl | hv'
    · exact insertVars_lookup_of_some ws b _ v.Name _
        (lookup_mapInsert_self tbl v.Name _ hfresh)
    · have hne : v.Name ≠ w.Name := by
        intro he
        have : w.Name ∈ ws.map ShaderVarDesc.Name :=
          he ▸ List.mem_map_of_mem ShaderVarDesc.Name hv'
        exact (List.nodup_cons.mp hnodup).1 this
      exact ih _ v hv' (List.nodup_cons.mp hnodup).2
        (lookup_mapInsert_of_none tbl w.Name _ v.Name hfresh hne)

theorem processResources_varTable (rs : List ResourceBindDesc) :
    ∀ s, (processResources rs s).varTable = s.varTable := by
  induction rs with
  | nil => intro s; rfl
  | cons r rest ih =>
    intro s
    unfold processResources
    cases r.SIType <;> simp [ih]

theorem processResources_constantBuffers (rs : List ResourceBindDesc) :
    ∀ s, (processResources rs s).constantBuffers = s.constantBuffers := by
  induction rs with
  | nil => intro s; rfl
  | cons r rest ih =>
    intro s
    unfold processResources
    cases r.SIType <;> simp [ih]

theorem loadCBLoop_varTable_of_some (bds : List ShaderBufferDesc) :
    ∀ b s k v, s.varTable.lookup k = some v →
      ((loadCBLoop b bds s).varTable).lookup k = some v := by
  induction bds with
  | nil => intro b s k v h; exact h
  | cons bd rest ih =>
    intro b s k v h
    exact ih (b + 1) _ k v (insertVars_lookup_of_some bd.Variables b _ k v h)

theorem loadCBLoop_cons (b : Nat) (bd0 : ShaderBufferDesc)
    (rest : List ShaderBufferDesc) (s : ISimpleShaderState) :
    loadCBLoop b (bd0 :: rest) s = loadCBLoop (b + 1) rest
      { s with
        constantBuffers := s.constantBuffers ++
          [{ BindIndex := bd0.BindPoint, Name := bd0.Name, CBType := bd0.CBType
             Size := bd0.Size, LocalDataBuffer := List.replicate bd0.Size 0
             Variables := bd0.Variables.map
               (fun v =>
                 { ConstantBufferIndex := b, ByteOffset := v.StartOffset
                   Size := v.Size }) }]
        cbTable := mapInsert s.cbTable bd0.Name b
        varTable := insertVars b bd0.Variables s.varTable } := rfl

theorem loadCBLoop_varTable_mem (bds : List ShaderBufferDesc) :
    ∀ b s i bd v, (varNames bds).Nodup →
      (∀ k ∈ varNames bds, s.varTable.lookup k = none) →
      bds[i]? = some bd → v ∈ bd.Variables →
      ((loadCBLoop b bds s).varTable).lookup v.Name =
        some { ConstantBufferIndex := b + i, ByteOffset := v.StartOffset
               Size := v.Size } := by
  induction bds with
  | nil => intro b s i bd v _ _ hi; simp at hi
  | cons bd0 rest ih =>
    intro b s i bd v hnodup hfresh hi hv
    have hsplit : varNames (bd0 :: rest) =
        bd0.Variables.map ShaderVarDesc.Name ++ varNames rest := by
      simp [varNames]
    rw [hsplit] at hnodup hfresh
    have hnd := List.nodup_append.mp hnodup
    rw [loadCBLoop_cons]
    cases i with
    | zero =>
      simp only [List.getElem?_cons_zero, Option.some.injEq] at hi
      subst hi
      have hname : v.Name ∈ bd0.Variables.map ShaderVarDesc.Name :=
        List.mem_map_of_mem ShaderVarDesc.Name hv
      have hself := insertVars_lookup_self bd0.Variables b s.varTable v hv hnd.1
        (hfresh v.Name (List.mem_append_left _ hname))
      simpa using loadCBLoop_varTable_of_some rest (b + 1) _ v.Name _ hself
    | succ i' =>
      simp only [List.getElem?_cons_succ] at hi
      have heq : b + (i' + 1) = (b + 1) + i' := by omega
      rw [heq]
      refine ih (b + 1) _ i' bd v hnd.2.1 ?_ hi hv
      intro k hk
      refine insertVars_lookup_of_none bd0.Variables b s.varTable k
        (hfresh k (List.mem_append_right _ hk)) ?_
      intro w hw he
      exact hnd.2.2 (he ▸ List.mem_map_of_mem ShaderVarDesc.Name hw) hk

/-- C7: after a successful build in which all reflected variable names
are distinct across the program's constant buffers, looking up any
reflected variable's name in the variable table succeeds and returns
a descriptor whose size equals that variable's reflected size. -/
theorem ISimpleShader.reflectedVariable_lookup (desc : ShaderDesc) (i : Nat)
    (bd : ShaderBufferDesc) (v : ShaderVarDesc)
    (hnodup : (varNames desc.ConstantBuffers).Nodup)
    (hi : desc.ConstantBuffers[i]? = some bd)
    (hv : v ∈ bd.Variables) :
    ∃ sv, ISimpleShader.FindVariable
        (ISimpleShader.LoadShaderFile true true desc).2 v.Name (-1) = some sv ∧
      sv.Size = v.Size ∧
      sv = { ConstantBufferIndex := i, ByteOffset := v.StartOffset
             Size := v.Size } := by
  refine ⟨{ ConstantBufferIndex := i, ByteOffset := v.StartOffset
            Size := v.Size }, ?_, rfl, rfl⟩
  have hbase : ∀ k ∈ varNames desc.ConstantBuffers,
      ((processResources desc.BoundResources
        { initState with shaderValid := true }).varTable).lookup k = none := by
    intro k _
    rw [processResources_varTable]
    rfl
  have hlook := loadCBLoop_varTable_mem desc.ConstantBuffers 0
    (processResources desc.BoundResources { initState with shaderValid := true })
    i bd v hnodup hbase hi hv
  simp only [Nat.zero_add] at hlook
  unfold ISimpleShader.FindVariable
  unfold ISimpleShader.LoadShaderFile
  simp only [Bool.true_eq_false, if_false]
  rw [hlook]
  norm_num

/-- C7 witness: the variable `worldScale` of the second sample buffer is
found with its reflected size 4. -/
theorem ISimpleShader.reflectedVariable_lookup_witness :
    (varNames sampleDesc.ConstantBuffers).Nodup ∧
      sampleDesc.ConstantBuffers[1]? =
        some { Name := "PerObject", Size := 4, CBType := .ctCBuffer
               BindPoint := 1, Variables := [⟨"worldScale", 0, 4⟩] } ∧
      (⟨"worldScale", 0, 4⟩ : ShaderVarDesc) ∈
        [(⟨"worldScale", 0, 4⟩ : ShaderVarDesc)] ∧
      ∃ sv, ISimpleShader.FindVariable
          (ISimpleShader.LoadShaderFile true true sampleDesc).2 "worldScale"
          (-1) = some sv ∧
        sv.Size = 4 ∧
        sv = { ConstantBufferIndex := 1, ByteOffset := 0, Size := 4 } :=
  ⟨by decide, by decide, by decide,
    ISimpleShader.reflectedVariable_lookup sampleDesc 1
      { Name := "PerObject", Size := 4, CBType := .ctCBuffer, BindPoint := 1
        Variables := [⟨"worldScale", 0, 4⟩] }
      ⟨"worldScale", 0, 4⟩ (by decide) (by decide) (by decide)⟩

theorem mem_modifyIdx {α : Type} (l : List α) (i : Nat) (f : α → α) (x : α)
    (hx : x ∈ modifyIdx l i f) : x ∈ l ∨ ∃ y, y ∈ l ∧ x = f y := by
  induction l generalizing i with
  | nil => simp [modifyIdx] at hx
  | cons a as ih =>
    cases i with
    | zero =>
      rcases List.mem_cons.mp hx with rfl | h
      · exact Or.inr ⟨a, List.mem_cons_self a as, rfl⟩
      · exact Or.inl (List.mem_cons_of_mem a h)
    | succ i' =>
      rcases List.mem_cons.mp hx with rfl | h
      · exact Or.inl (List.mem_cons_self x as)
      · rcases ih i' h with h' | ⟨y, hy, rfl⟩
        · exact Or.inl (List.mem_cons_of_mem a h')
        · exact Or.inr ⟨y, List.mem_cons_of_mem a hy, rfl⟩

theorem SetData_preserves_sizes (s : ISimpleShaderState) (name : String)
    (data : List Byte) (size : Nat)
    (h : ∀ cb ∈ s.constantBuffers, cb.LocalDataBuffer.length = cb.Size) :
    ∀ cb ∈ (ISimpleShader.SetData s name data size).2.constantBuffers,
      cb.LocalDataBuffer.length = cb.Size := by
  unfold ISimpleShader.SetData
  cases hf : ISimpleShader.FindVariable s name (-1) with
  | none => exact h
  | some var =>
    by_cases hgt : size > var.Size
    · simp only [if_pos hgt]
      exact h
    · simp only [if_neg hgt]
      intro cb hcb
      rcases mem_modifyIdx _ _ _ cb hcb with hmem | ⟨y, hy, rfl⟩
      · exact h cb hmem
      · simpa [length_writeBytes] using h y hy

theorem applyOp_preserves_sizes (s : ISimpleShaderState) (op : ShaderOp)
    (h : ∀ cb ∈ s.constantBuffers, cb.LocalDataBuffer.length = cb.Size) :
    ∀ cb ∈ (applyOp s op).constantBuffers,
      cb.LocalDataBuffer.length = cb.Size := by
  cases op with
  | setData name data size => exact SetData_preserves_sizes s name data size h
  | setShader _ => exact h
  | copyAllBufferData => exact h
  | copyBufferData _ => exact h
  | copyBufferDataName _ => exact h
  | setShaderResourceView _ => exact h
  | setSamplerState _ => exact h

theorem runOps_preserves_sizes (ops : List ShaderOp) :
    ∀ s, (∀ cb ∈ s.constantBuffers, cb.LocalDataBuffer.length = cb.Size) →
      ∀ cb ∈ (runOps s ops).constantBuffers,
        cb.LocalDataBuffer.length = cb.Size := by
  induction ops with
  | nil => intro s h; exact h
  | cons op rest ih =>
    intro s h
    exact ih (applyOp s op) (applyOp_preserves_sizes s op h)

theorem loadCBLoop_constantBuffers_mem (bds : List ShaderBufferDesc) :
    ∀ b s cb, cb ∈ (loadCBLoop b bds s).constantBuffers →
      cb ∈ s.constantBuffers ∨ cb.LocalDataBuffer = List.replicate cb.Size 0 := by
  induction bds with
  | nil => intro b s cb h; exact Or.inl h
  | cons bd0 rest ih =>
    intro b s cb h
    rw [loadCBLoop_cons] at h
    rcases ih (b + 1) _ cb h with h' | h'
    · rcases List.mem_append.mp h' with h'' | h''
      · exact Or.inl h''
      · rcases List.mem_singleton.mp h'' with rfl
        exact Or.inr rfl
    · exact Or.inr h'

/-- C8: after a successful build every constant buffer's staging array
has length exactly its reflected byte size and is all zero bytes, and
the length invariant is preserved by any sequence of subsequent
post-build operations. -/
theorem ISimpleShader.staging_invariant (fileOk createOk : Bool)
    (desc : ShaderDesc)
    (h : (ISimpleShader.LoadShaderFile fileOk createOk desc).1 = true) :
    (∀ cb ∈ (ISimpleShader.LoadShaderFile fileOk createOk
        desc).2.constantBuffers,
      cb.LocalDataBuffer.length = cb.Size ∧
        cb.LocalDataBuffer = List.replicate cb.Size 0) ∧
      ∀ ops : List ShaderOp,
        ∀ cb ∈ (runOps (ISimpleShader.LoadShaderFile fileOk createOk desc).2
            ops).constantBuffers,
          cb.LocalDataBuffer.length = cb.Size := by
  cases fileOk with
  | false => simp [ISimpleShader.LoadShaderFile] at h
  | true =>
    cases createOk with
    | false => simp [ISimpleShader.LoadShaderFile] at h
    | true =>
      have hzero : ∀ cb ∈ (ISimpleShader.LoadShaderFile true true
          desc).2.constantBuffers, cb.LocalDataBuffer = List.replicate cb.Size 0 := by
        intro cb hcb
        have := loadCBLoop_constantBuffers_mem desc.ConstantBuffers 0
          (processResources desc.BoundResources
            { initState with shaderValid := true }) cb hcb
        rcases this with hmem | hrep
        · rw [processResources_constantBuffers] at hmem
          exact absurd hmem (List.not_mem_nil cb)
        · exact hrep
      refine ⟨?_, ?_⟩
      · intro cb hcb
        refine ⟨?_, hzero cb hcb⟩
        rw [hzero cb hcb, List.length_replicate]
      · intro ops
        refine runOps_preserves_sizes ops _ ?_
        intro cb hcb
        rw [hzero cb hcb, List.length_replicate]

/-- C8 witness: the freshly built sample program has zeroed,
correctly-sized staging arrays, and a partial `SetData` keeps the
sizes. -/
theorem ISimpleShader.staging_invariant_witness :
    (ISimpleShader.LoadShaderFile true true sampleDesc).1 = true ∧
      (∀ cb ∈ (ISimpleShader.LoadShaderFile true true
          sampleDesc).2.constantBuffers,
        cb.LocalDataBuffer.length = cb.Size ∧
          cb.LocalDataBuffer = List.replicate cb.Size 0) ∧
      ∀ cb ∈ (runOps (ISimpleShader.LoadShaderFile true true sampleDesc).2
          [ShaderOp.setData "tint" [9, 9] 2]).constantBuffers,
        cb.LocalDataBuffer.length = cb.Size :=
  ⟨by decide,
    (ISimpleShader.staging_invariant true true sampleDesc (by decide)).1,
    (ISimpleShader.staging_invariant true true sampleDesc (by decide)).2
      [ShaderOp.setData "tint" [9, 9] 2]⟩

theorem SimpleComputeShader.Load_failed (fileOk createOk : Bool)
    (desc : ShaderDesc)
    (h : (SimpleComputeShader.Load fileOk createOk desc).1 = false) :
    (SimpleComputeShader.Load fileOk createOk desc).2 = initComputeState := by
  cases fileOk with
  | false => rfl
  | true =>
    cases createOk with
    | false => rfl
    | true =>
      simp [SimpleComputeShader.Load, ISimpleShader.LoadShaderFile] at h

/-- C3 counterexample: a compute program whose load failed (validity
flag false) still issues a `Dispatch` call to the device context from
`DispatchByGroups`, so not every public operation of an invalid
program is free of side effects. -/
theorem SimpleComputeShader.dispatch_on_invalid_counterexample :
    (SimpleComputeShader.Load false true sampleDesc).1 = false ∧
      SimpleComputeShader.DispatchByGroups
          (SimpleComputeShader.Load false true sampleDesc).2 1 1 1 =
        [DeviceCall.dispatch 1 1 1] ∧
      SimpleComputeShader.DispatchByGroups
          (SimpleComputeShader.Load false true sampleDesc).2 1 1 1 ≠
        ([] : List DeviceCall) := by
  refine ⟨rfl, rfl, ?_⟩
  decide

/-- C3 (amended): on a program whose load failed, activation, uploads,
the staging and resource setters and all lookups return
false/not-found without issuing any device-context call and without
changing state; the dispatch operations are the exception — they
issue `deviceContext->Dispatch` unconditionally (shown for
`DispatchByGroups`; `DispatchByThreads` likewise has no validity
check, its group arithmetic being floating-point). -/
theorem SimpleComputeShader.invalid_program_ops (fileOk createOk : Bool)
    (desc : ShaderDesc)
    (h : (SimpleComputeShader.Load fileOk createOk desc).1 = false)
    (name : String) (data : List Byte) (size index offset x y z : Nat)
    (wl : Bool) :
    ISimpleShader.SetShader wl
        (SimpleComputeShader.Load fileOk createOk desc).2.base = [] ∧
      ISimpleShader.CopyAllBufferData
        (SimpleComputeShader.Load fileOk createOk desc).2.base = [] ∧
      ISimpleShader.CopyBufferData
        (SimpleComputeShader.Load fileOk createOk desc).2.base index = [] ∧
      ISimpleShader.CopyBufferDataName
        (SimpleComputeShader.Load fileOk createOk desc).2.base name = [] ∧
      ISimpleShader.SetData
          (SimpleComputeShader.Load fileOk createOk desc).2.base name data
          size =
        (false, (SimpleComputeShader.Load fileOk createOk desc).2.base) ∧
      ISimpleShader.HasVariable
        (SimpleComputeShader.Load fileOk createOk desc).2.base name = false ∧
      ISimpleShader.GetVariableInfo
        (SimpleComputeShader.Load fileOk createOk desc).2.base name = none ∧
      ISimpleShader.GetShaderResourceViewInfo
        (SimpleComputeShader.Load fileOk createOk desc).2.base name = none ∧
      ISimpleShader.GetSamplerInfo
        (SimpleComputeShader.Load fileOk createOk desc).2.base name = none ∧
      ISimpleShader.GetBufferInfo
        (SimpleComputeShader.Load fileOk createOk desc).2.base name = none ∧
      SetShaderResourceView
          (SimpleComputeShader.Load fileOk createOk desc).2.base name =
        (false, []) ∧
      SetSamplerState
          (SimpleComputeShader.Load fileOk createOk desc).2.base name =
        (false, []) ∧
      SimpleComputeShader.HasUnorderedAccessView
        (SimpleComputeShader.Load fileOk createOk desc).2 name = false ∧
      SimpleComputeShader.SetUnorderedAccessView
          (SimpleComputeShader.Load fileOk createOk desc).2 name offset =
        (false, []) ∧
      SimpleComputeShader.DispatchByGroups
          (SimpleComputeShader.Load fileOk createOk desc).2 x y z =
        [DeviceCall.dispatch x y z] := by
  rw [SimpleComputeShader.Load_failed fileOk createOk desc h]
  refine ⟨rfl, rfl, ?_, rfl, rfl, rfl, rfl, rfl, rfl, rfl, rfl, rfl, ?_, rfl,
    rfl⟩
  · unfold ISimpleShader.CopyBufferData
    simp [initComputeState, initState]
  · unfold SimpleComputeShader.HasUnorderedAccessView
    simp [SimpleComputeShader.GetUnorderedAccessViewIndex, initComputeState]

/-- C3 witness: the no-op guarantees instantiated on a concrete failed
load. -/
theorem SimpleComputeShader.invalid_program_ops_witness :
    (SimpleComputeShader.Load false true sampleDesc).1 = false ∧
      ISimpleShader.SetData
          (SimpleComputeShader.Load false true sampleDesc).2.base "tint" [1]
          1 =
        (false, (SimpleComputeShader.Load false true sampleDesc).2.base) ∧
      SimpleComputeShader.SetUnorderedAccessView
          (SimpleComputeShader.Load false true sampleDesc).2 "OutBuffer" 0 =
        (false, []) :=
  ⟨by decide,
    (SimpleComputeShader.invalid_program_ops false true sampleDesc (by decide)
      "tint" [1] 1 0 0 1 1 1 false).2.2.2.2.1,
    (SimpleComputeShader.invalid_program_ops false true sampleDesc (by decide)
      "OutBuffer" [1] 1 0 0 1 1 1
      false).2.2.2.2.2.2.2.2.2.2.2.2.2.1⟩
